import Mathlib

/-!
Verification of the bridge-aggregator integration (the Rubic tool file):
a shallow embedding of its address resolution, quote normalization,
swap-preparation pipeline and status mapping, with theorems checking the
design document's claims against the embedded code.

JavaScript values flowing through the handlers are modelled by the `Json`
inductive below; JS truthiness, property access (including the `TypeError`
raised by reading a property of `null`/`undefined`), `||`-defaulting,
template-string interpolation and `JSON.stringify` are each embedded as
a small total function.  `undefined` and `null` are conflated into
`Json.jnull`: both are falsy and both make a subsequent property read
throw, which is the only behaviour the handlers depend on.
-/

namespace Rubic

/-- A parsed JSON / runtime JS value (objects keep field insertion order). -/
inductive Json where
  | jnull
  | jbool (b : Bool)
  | jnum (n : Int)
  | jstr (s : String)
  | jarr (elems : List Json)
  | jobj (fields : List (String × Json))
deriving Repr, BEq, Inhabited

/-- JS truthiness of a value (`Boolean(x)`): `null`/`undefined`, `false`,
`0` and `""` are falsy; every object and array is truthy. -/
def Json.truthy : Json → Bool
  | .jnull => false
  | .jbool b => b
  | .jnum n => n != 0
  | .jstr s => s != ""
  | .jarr _ => true
  | .jobj _ => true

/-- First binding of a key in an object's field list (JSON.parse keeps the
last duplicate; bodies in scope have distinct keys, so first = last). -/
def lookupField : List (String × Json) → String → Option Json
  | [], _ => none
  | (k, v) :: rest, key => if k = key then some v else lookupField rest key

/-- Total property access `obj.k`: a missing key or a non-object receiver
yields `undefined` (modelled as `jnull`).  Used where the source guards the
receiver (`if (x) { x.k ... }`) or uses optional chaining `x?.k`. -/
def Json.getf : Json → String → Json
  | .jobj fs, k => (lookupField fs k).getD .jnull
  | _, _ => .jnull

/-- Property access `obj.k` as the JS runtime performs it: reading a
property of `null`/`undefined` throws a `TypeError`; any other receiver
answers (primitives simply yield `undefined`). -/
def Json.getfE : Json → String → Except String Json
  | .jnull, k =>
      .error ("TypeError: Cannot read properties of null (reading \x27" ++ k ++ "\x27)")
  | j, k => .ok (j.getf k)

/-- JS `a || b`. -/
def jsOr (a b : Json) : Json := if a.truthy then a else b

/-- JS `typeof x === \x27string\x27`. -/
def Json.isStr : Json → Bool
  | .jstr _ => true
  | _ => false

mutual
/-- JS string coercion `String(x)` / template interpolation `${x}`. -/
def Json.jsToString : Json → String
  | .jnull => "null"
  | .jbool b => cond b "true" "false"
  | .jnum n => toString n
  | .jstr s => s
  | .jarr es => jsToStringArr es
  | .jobj _ => "[object Object]"
/-- `Array.prototype.toString`: elements joined by commas, nullish as "". -/
def jsToStringArr : List Json → String
  | [] => ""
  | [e] => jsToStringElem e
  | e :: rest => jsToStringElem e ++ "," ++ jsToStringArr rest
/-- One array element under `toString`: `null`/`undefined` render empty. -/
def jsToStringElem : Json → String
  | .jnull => ""
  | e => Json.jsToString e
end

mutual
/-- `JSON.stringify(x)` (compact form, as used in the error messages). -/
def Json.stringify : Json → String
  | .jnull => "null"
  | .jbool b => cond b "true" "false"
  | .jnum n => toString n
  | .jstr s => "\"" ++ s ++ "\""
  | .jarr es => "[" ++ stringifyArr es ++ "]"
  | .jobj fs => "\x7b" ++ stringifyObj fs ++ "\x7d"
def stringifyArr : List Json → String
  | [] => ""
  | [e] => Json.stringify e
  | e :: rest => Json.stringify e ++ "," ++ stringifyArr rest
def stringifyObj : List (String × Json) → String
  | [] => ""
  | [(k, v)] => "\"" ++ k ++ "\":" ++ Json.stringify v
  | (k, v) :: rest => "\"" ++ k ++ "\":" ++ Json.stringify v ++ "," ++ stringifyObj rest
end

/-- `Object.keys(x).length` (for strings JS yields the index count). -/
def jsKeysLen : Json → Nat
  | .jobj fs => fs.length
  | .jarr es => es.length
  | .jstr s => s.length
  | _ => 0

/-- One string a character-wise prefix of another. -/
def charsPrefix : List Char → List Char → Bool
  | [], _ => true
  | _ :: _, [] => false
  | a :: as, b :: bs => a == b && charsPrefix as bs

/-- Substring occurrence over the character lists. -/
def charsContains : List Char → List Char → Bool
  | [], needle => needle.isEmpty
  | c :: rest, needle => charsPrefix needle (c :: rest) || charsContains rest needle

/-- JS `hay.includes(needle)`. -/
def jsIncludes (hay needle : String) : Bool := charsContains hay.toList needle.toList

/-- JS `s.startsWith(pre)`. -/
def jsStartsWith (s pre : String) : Bool := charsPrefix pre.toList s.toList

/-- JS `s.toUpperCase()` (character-wise, which is all the ids need). -/
def jsToUpper (s : String) : String := String.mk (s.toList.map Char.toUpper)

/-! ## Address resolution (sanitizeAddress / getWalletAddress) -/

/-- The environment variables the wallet helpers read. -/
structure Env where
  ethPublicAddress : Option String
  ethPrivateKey : Option String

/-- `process.env.X` under a JS truthiness test: a set-but-empty variable
behaves like an unset one (`if (process.env.X)`). -/
def envVar : Option String → Option String
  | some "" => none
  | v => v

/-- The fixed placeholder set recognised by `sanitizeAddress`. -/
def isPlaceholder (a : String) : Bool :=
  a == "0xYourWalletAddressHere" ||
  a == "0xYourAddressHere" ||
  a == "0x0000000000000000000000000000000000000001"

/-- `getWalletAddress()`: prefer `ETH_PUBLIC_ADDRESS`, else derive from
`ETH_PRIVATE_KEY` (normalised to a `0x` prefix) via the wallet library,
modelled by the `derive` parameter; failure messages follow the source. -/
def getWalletAddress (derive : String → Except String String) (env : Env) :
    Except String String :=
  match envVar env.ethPublicAddress with
  | some address => .ok address
  | none =>
    match envVar env.ethPrivateKey with
    | none => .error "Neither ETH_PUBLIC_ADDRESS nor ETH_PRIVATE_KEY found in environment variables"
    | some pk =>
      let privateKey := if jsStartsWith pk "0x" then pk else "0x" ++ pk
      match derive privateKey with
      | .ok address => .ok address
      | .error e => .error ("Failed to derive address from private key: " ++ e)

/-- `sanitizeAddress(address)`: a missing or empty address yields
`undefined`; a recognised placeholder is replaced by `getWalletAddress()`
when that succeeds (else `undefined`); anything else passes through. -/
def sanitizeAddress (derive : String → Except String String) (env : Env)
    (address : Option String) : Option String :=
  match address with
  | none => none
  | some a =>
    if a = "" then none
    else if isPlaceholder a then
      match getWalletAddress derive env with
      | .ok derived => some derived
      | .error _ => none
    else some a

/-- The `prepareRubicBridgeSwap` / allowance handlers' resolution of the
acting address: sanitize the explicit one, else fall back to
`getWalletAddress()`, else fail (the JS `${error}` interpolation prefixes
the inner `Error` with "Error: "). -/
def resolveFromAddress (derive : String → Except String String) (env : Env)
    (fromAddress : Option String) : Except String String :=
  match sanitizeAddress derive env fromAddress with
  | some a => .ok a
  | none =>
    match getWalletAddress derive env with
    | .ok a => .ok a
    | .error e =>
      .error ("No valid fromAddress provided and failed to get from private key: Error: " ++ e)

/-- The quote handlers' softer resolution: on failure they continue
without a wallet address instead of failing. -/
def resolveWalletOpt (derive : String → Except String String) (env : Env)
    (walletAddress : Option String) : Option String :=
  match sanitizeAddress derive env walletAddress with
  | some a => some a
  | none =>
    match getWalletAddress derive env with
    | .ok a => some a
    | .error _ => none

/-! ## Request bodies -/

/-- The constant referrer stamped on every quote/swap request. -/
def RUBIC_REFERRER : String := "rubic.exchange"

/-- Caller arguments shared by `getRubicBridgeQuote` and
`getRubicBridgeQuotes` (defaults as in the source signatures). -/
structure QuoteArgs where
  srcTokenAddress : String
  srcTokenBlockchain : String
  srcTokenAmount : String
  dstTokenAddress : String
  dstTokenBlockchain : String
  walletAddress : Option String := none
  slippageTolerance : ℚ := 1
  showFailedRoutes : Bool := false
  includeTestnets : Bool := false
  timeout : Int := 30

/-- The JSON body POSTed to `/routes/quoteBest` and `/routes/quoteAll`
(the two handlers assemble it identically). -/
structure QuoteRequestBody where
  srcTokenBlockchain : String
  srcTokenAddress : String
  srcTokenAmount : String
  dstTokenBlockchain : String
  dstTokenAddress : String
  referrer : String
  timeout : Int
  includeTestnets : Bool
  showFailedRoutes : Bool
  slippageTolerance : ℚ
  walletAddress : Option String

/-- Body assembly for the quote endpoints: referrer stamped, slippage
percentage divided by 100, wallet address resolved softly and omitted
when unresolvable. -/
def mkQuoteRequestBody (derive : String → Except String String) (env : Env)
    (args : QuoteArgs) : QuoteRequestBody :=
  { srcTokenBlockchain := args.srcTokenBlockchain
    srcTokenAddress := args.srcTokenAddress
    srcTokenAmount := args.srcTokenAmount
    dstTokenBlockchain := args.dstTokenBlockchain
    dstTokenAddress := args.dstTokenAddress
    referrer := RUBIC_REFERRER
    timeout := args.timeout
    includeTestnets := args.includeTestnets
    showFailedRoutes := args.showFailedRoutes
    slippageTolerance := args.slippageTolerance / 100
    walletAddress := resolveWalletOpt derive env args.walletAddress }

/-- Caller arguments of `prepareRubicBridgeSwap`. -/
structure PrepareArgs where
  quoteId : String
  fromAddress : Option String := none
  srcTokenAddress : String
  srcTokenBlockchain : String
  srcTokenAmount : String
  dstTokenAddress : String
  dstTokenBlockchain : String
  receiver : Option String := none
  slippageTolerance : ℚ := 1

/-- The JSON body POSTed to `/routes/swap`. -/
structure SwapRequestBody where
  id : String
  fromAddress : String
  walletAddress : String
  srcTokenBlockchain : String
  srcTokenAddress : String
  srcTokenAmount : String
  dstTokenBlockchain : String
  dstTokenAddress : String
  referrer : String
  slippageTolerance : ℚ
  receiver : Option String

/-- Swap body assembly: the quote id is passed through verbatim, the
resolved address fills both `fromAddress` and `walletAddress`, slippage
is divided by 100, and `receiver` is spread in only when truthy
(`...(receiver ? { receiver: String(receiver) } : {})`). -/
def mkSwapRequestBody (args : PrepareArgs) (userFromAddress : String) :
    SwapRequestBody :=
  { id := args.quoteId
    fromAddress := userFromAddress
    walletAddress := userFromAddress
    srcTokenBlockchain := args.srcTokenBlockchain
    srcTokenAddress := args.srcTokenAddress
    srcTokenAmount := args.srcTokenAmount
    dstTokenBlockchain := args.dstTokenBlockchain
    dstTokenAddress := args.dstTokenAddress
    referrer := RUBIC_REFERRER
    slippageTolerance := args.slippageTolerance / 100
    receiver :=
      match args.receiver with
      | some r => if r = "" then none else some r
      | none => none }

/-! ## HTTP responses -/

/-- An upstream HTTP response as the handlers consume it: `ok`/`status`
from `fetch`, the raw body text, and the result of parsing the text as
JSON (`none` when `JSON.parse` / `response.json()` would throw). -/
structure HttpResp where
  ok : Bool
  status : Nat
  text : String
  json : Option Json

/-- `response.json()` (used by the chains / quote / status handlers):
parse failure surfaces as a thrown SyntaxError. -/
def respJson (resp : HttpResp) : Except String Json :=
  match resp.json with
  | some j => .ok j
  | none => .error ("SyntaxError: Unexpected token in JSON: " ++ resp.text)

/-! ## QuoteService: getRubicBridgeQuotes (quoteAll) normalization -/

/-- How the `quoteAll` handler classifies an upstream body (the branch
structure at the top of its formatting code). -/
inductive QuoteAllView where
  | single (q : Json)
  | invalid
  | noRoutes
  | multi (qs : List Json)
deriving Repr, BEq

/-- The branch dispatch on the raw `quoteAll` body: a non-array with a
truthy `id` is displayed as a single route, a non-array without one as
"no routes / invalid format", an empty array as "no routes", any other
array element-wise.  Reading `id` off a `null` body throws. -/
def classifyQuoteAll (raw : Json) : Except String QuoteAllView :=
  match raw with
  | .jarr es => if es.length = 0 then .ok .noRoutes else .ok (.multi es)
  | _ => do
    let idv ← raw.getfE "id"
    if idv.truthy then .ok (.single raw) else .ok .invalid

/-- The sequence of quotes a classified body presents. -/
def quotesOf : QuoteAllView → List Json
  | .single q => [q]
  | .invalid => []
  | .noRoutes => []
  | .multi qs => qs

/-- `getRubicBridgeQuotes` after the POST: non-2xx is a hard error
carrying status and raw body; otherwise parse and classify. -/
def quotesOutcome (resp : HttpResp) : Except String QuoteAllView := do
  if !resp.ok then
    throw ("Rubic API error (" ++ toString resp.status ++ "): " ++ resp.text)
  let rawData ← respJson resp
  classifyQuoteAll rawData

/-- The whole `getRubicBridgeQuotes` tool handler: its `try`/`catch`
turns every thrown error into an ordinary text result. -/
def quotesTool (resp : HttpResp) : String :=
  match quotesOutcome resp with
  | .ok view => "Available Bridge Routes: " ++ toString (quotesOf view).length
  | .error e => "Failed to get bridge quotes: " ++ e

/-! ## StatusTracker: getRubicBridgeStatus -/

/-- The raw status tokens the `switch` recognises. -/
def recognizedStatuses : List String :=
  ["pending", "indexing", "revert", "failed", "claim", "success", "error"]

/-- The catch-all explanation attached to unrecognised status tokens. -/
def unknownStatusExplanation : String :=
  "Unknown status. Please check the Rubic interface for more information."

/-- The `switch (data.status)` explanation table, one fixed string per
recognised token, `default` for everything else. -/
def statusExplanation (status : String) : String :=
  if status = "pending" then
    "Your transaction is still in progress. This could take a few minutes to complete."
  else if status = "indexing" then
    "The transaction has been detected but is still being indexed. Please check back soon."
  else if status = "revert" then
    "The transaction on the destination chain failed and needs to be reverted. You should collect your funds."
  else if status = "failed" then
    "The transaction has failed. Your funds may be reverted automatically."
  else if status = "claim" then
    "The transaction was successful! You can now claim your tokens on the destination chain."
  else if status = "success" then
    "The transaction was completed successfully! Your tokens have been sent to the destination address."
  else if status = "error" then
    "An error occurred during the transaction. Please check the error message for details."
  else unknownStatusExplanation

/-- The status view the handler renders: the raw token upper-cased as
the displayed state, plus its explanation. -/
structure StatusView where
  state : String
  explanation : String
deriving Repr, BEq

/-- `getRubicBridgeStatus` after the GET: non-2xx throws; then
`data.status.toUpperCase()` (a `TypeError` when `status` is missing or
not a string) and the explanation switch. -/
def statusOutcome (resp : HttpResp) : Except String StatusView := do
  if !resp.ok then
    throw ("Rubic API error (" ++ toString resp.status ++ "): " ++ resp.text)
  let data ← respJson resp
  let st ← data.getfE "status"
  match st with
  | .jstr s => .ok { state := jsToUpper s, explanation := statusExplanation s }
  | .jnull => .error "TypeError: Cannot read properties of null (reading \x27toUpperCase\x27)"
  | _ => .error "TypeError: data.status.toUpperCase is not a function"

/-- The whole `getRubicBridgeStatus` tool handler with its `try`/`catch`. -/
def statusTool (resp : HttpResp) : String :=
  match statusOutcome resp with
  | .ok v => "Status: " ++ v.state ++ "\nStatus Explanation:\n" ++ v.explanation
  | .error e => "Failed to get bridge transaction status: " ++ e

/-! ## getRubicSupportedChains -/

/-- `Array.prototype.join(sep)`: only arrays have it; nullish elements
render empty, others via `String(x)`. -/
def jsJoin (j : Json) (sep : String) : Except String String :=
  match j with
  | .jarr es => .ok (String.intercalate sep (es.map jsToStringElem))
  | _ => .error "TypeError: join is not a function"

/-- One line block of the chains listing (`formattedChains` + its text
template); property reads and `join` throw exactly where JS would. -/
def formatChainEntry (c : Json) : Except String String := do
  let name ← c.getfE "name"
  let id ← c.getfE "id"
  let testnet ← c.getfE "testnet"
  let ty ← c.getfE "type"
  let providers ← c.getfE "providers"
  let crossChain ← providers.getfE "crossChain"
  let onChain ← providers.getfE "onChain"
  let proxyAvailable ← c.getfE "proxyAvailable"
  let ccs ← jsJoin crossChain ", "
  let ocs ← jsJoin onChain ", "
  .ok (name.jsToString ++ " (ID: " ++ id.jsToString ++ ")" ++
    (if testnet.truthy then " [TESTNET]" else "") ++
    "\nType: " ++ ty.jsToString ++
    "\nCross-Chain Providers: " ++ ccs ++
    "\nOn-Chain Providers: " ++ ocs ++
    "\nFee Collection Available: " ++ (if proxyAvailable.truthy then "Yes" else "No") ++ "\n")

/-- `getRubicSupportedChains` after the GET: non-2xx throws; `data.map`
is only a function on arrays; each entry formats as above. -/
def chainsOutcome (resp : HttpResp) : Except String (List String) := do
  if !resp.ok then
    throw ("Rubic API error (" ++ toString resp.status ++ "): " ++ resp.text)
  let data ← respJson resp
  match data with
  | .jarr es => es.mapM formatChainEntry
  | _ => .error "TypeError: data.map is not a function"

/-- The whole `getRubicSupportedChains` tool handler with its
`try`/`catch`. -/
def chainsTool (resp : HttpResp) : String :=
  match chainsOutcome resp with
  | .ok lines =>
      "Available blockchains for cross-chain bridging:\n\n" ++ String.intercalate "\n" lines
  | .error e => "Failed to get supported blockchains: " ++ e

/-! ## SwapPreparer / TransactionExtractor: prepareRubicBridgeSwap -/

/-- The manual-construction short-circuit test (`quoteId.toUpperCase().includes('STARGATE')`). -/
def isStargate (quoteId : String) : Bool := jsIncludes (jsToUpper quoteId) "STARGATE"

/-- The quirky-provider dispatch: case-insensitive substring match of the
quote id against the fixed provider list. -/
def isQuirkyProvider (quoteId : String) : Bool :=
  jsIncludes (jsToUpper quoteId) "SQUIDROUTER" || jsIncludes (jsToUpper quoteId) "LIFI" ||
  jsIncludes (jsToUpper quoteId) "SYMBIOSIS" || jsIncludes (jsToUpper quoteId) "ACROSS" ||
  jsIncludes (jsToUpper quoteId) "BRIDGED"

/-- The opaque-payload dispatch (`srcTokenBlockchain.toUpperCase()` is
`SOLANA` or `SOL`). -/
def isSolanaChain (srcTokenBlockchain : String) : Bool :=
  jsToUpper srcTokenBlockchain == "SOLANA" || jsToUpper srcTokenBlockchain == "SOL"

mutual
/-- `findToAddress(obj, depth)`: the bounded recursive scan for a target
address.  A string hit must start with `0x`, have length 42 and sit under
a key named `to`, `targetAddress` or `contractAddress`; recursion stops
past depth 3; `for (const key in obj)` walks object fields in insertion
order and array elements under their numeric index keys (which never
match the three key names). -/
def findToAddress : Json → Nat → String
  | obj, depth =>
    if depth > 3 then ""
    else
      match obj with
      | .jobj fs => findToEntries fs depth
      | .jarr es => findToArr es depth
      | _ => ""
/-- The key/value loop of `findToAddress` over an object's fields. -/
def findToEntries : List (String × Json) → Nat → String
  | [], _ => ""
  | (key, v) :: rest, depth =>
    let hit :=
      match v with
      | .jstr s =>
        if jsStartsWith s "0x" && s.length == 42 then
          if key = "to" || key = "targetAddress" || key = "contractAddress" then s else ""
        else ""
      | .jnum _ => ""
      | .jbool _ => ""
      | other => findToAddress other (depth + 1)
    if hit = "" then findToEntries rest depth else hit
/-- The loop of `findToAddress` over an array's elements (their keys are
indices, so only recursion into object-typed elements can hit). -/
def findToArr : List Json → Nat → String
  | [], _ => ""
  | v :: rest, depth =>
    let hit :=
      match v with
      | .jstr _ => ""
      | .jnum _ => ""
      | .jbool _ => ""
      | other => findToAddress other (depth + 1)
    if hit = "" then findToArr rest depth else hit
end

/-- The `txData` record the quirky-provider handler assembles (fields
`to`/`data`/`value` in the source; `to` is a Lean keyword, hence the
`F` suffixes). -/
structure TxJ where
  toF : Json
  dataF : Json
  valueF : Json
deriving Repr, BEq

/-- The quirky-provider probing sequence: `transaction` first
(`targetAddress || to || routeTransaction?.targetAddress`), then — only
while `to` is still empty — `tx`, then `transactionRequest`, finally the
recursive `findToAddress` scan. -/
def quirkyTxData (data : Json) : TxJ :=
  let t := data.getf "transaction"
  let tx1 : TxJ :=
    if t.truthy then
      { toF := jsOr (t.getf "targetAddress") (jsOr (t.getf "to")
          (jsOr ((t.getf "routeTransaction").getf "targetAddress") (.jstr "")))
        dataF := jsOr (t.getf "data") (.jstr "")
        valueF := jsOr (t.getf "value") (.jstr "0") }
    else { toF := .jstr "", dataF := .jstr "", valueF := .jstr "0" }
  let u := data.getf "tx"
  let tx2 : TxJ :=
    if !tx1.toF.truthy && u.truthy then
      { toF := jsOr (u.getf "to") (jsOr (u.getf "targetAddress") (.jstr ""))
        dataF := jsOr (u.getf "data") (jsOr (t.getf "data") (.jstr ""))
        valueF := jsOr (u.getf "value") (jsOr (t.getf "value") (.jstr "0")) }
    else tx1
  let r := data.getf "transactionRequest"
  let tx3 : TxJ :=
    if !tx2.toF.truthy && r.truthy then
      { toF := jsOr (r.getf "to") (jsOr (r.getf "targetAddress") (.jstr ""))
        dataF := jsOr (r.getf "data") (.jstr "")
        valueF := jsOr (r.getf "value") (.jstr "0") }
    else tx2
  if !tx3.toF.truthy then { tx3 with toF := .jstr (findToAddress data 0) } else tx3

/-- The quirky-provider extraction path: require some transaction-bearing
key up front, assemble `txData`, and fail descriptively when the target
address or the calldata is still unresolved. -/
def quirkyExtract (quoteId : String) (data : Json) : Except String TxJ := do
  if !(data.getf "transaction").truthy && !(data.getf "tx").truthy &&
      !(data.getf "transactionRequest").truthy then
    throw ("No transaction data found in response for " ++ quoteId)
  let txData := quirkyTxData data
  if !txData.toF.truthy then
    throw ("Could not find transaction target address in " ++ quoteId ++ " response")
  if !txData.dataF.truthy then
    throw ("Could not find transaction data in " ++ quoteId ++ " response")
  return txData

/-- The opaque-payload (Solana) extraction path: a single mandatory
`transaction.data` blob, echoed back verbatim; reading it off a nullish
`transaction` throws the JS `TypeError`. -/
def solanaExtract (data : Json) : Except String Json := do
  let dV ← (data.getf "transaction").getfE "data"
  if !dV.truthy then
    throw ("Missing transaction data in Solana response: " ++ data.stringify)
  return dV

/-- The default account-based (EVM) extraction path: `transaction.to` and
`transaction.data` are mandatory; a missing one fails naming the field
and echoing `JSON.stringify` of the transaction object. -/
def evmExtract (data : Json) : Except String Json := do
  let transaction := data.getf "transaction"
  let toV ← transaction.getfE "to"
  if !toV.truthy then
    throw ("Missing \x27to\x27 address in transaction data: " ++ transaction.stringify)
  let dV ← transaction.getfE "data"
  if !dV.truthy then
    throw ("Missing \x27data\x27 in transaction data: " ++ transaction.stringify)
  return transaction

/-- A successful swap-preparation result, tagged by the path taken. -/
inductive PrepOk where
  | manual (info : String)
  | quirky (tx : TxJ)
  | solana (txData : Json)
  | evm (transaction : Json)
deriving Repr, BEq

/-- `prepareRubicBridgeSwap` from the swap POST's response onward:
non-2xx throws with status and raw body; unparseable JSON throws; a body
with a truthy `error`/`statusCode` or a non-empty string `message` is a
provider-reported error; a falsy or keyless body means no route; then
dispatch to the quirky / Solana / default EVM extraction path. -/
def processSwapResponse (quoteId srcTokenBlockchain : String) (resp : HttpResp) :
    Except String PrepOk := do
  if !resp.ok then
    throw ("Rubic API error (" ++ toString resp.status ++ "): " ++ resp.text)
  let data ←
    match resp.json with
    | some d => Except.ok d
    | none => Except.error ("Failed to parse API response as JSON: " ++ resp.text)
  let e ← data.getfE "error"
  let sc ← data.getfE "statusCode"
  let m ← data.getfE "message"
  if e.truthy || sc.truthy || (m.truthy && m.isStr) then
    throw ("API returned an error: " ++ (jsOr m (jsOr e (.jstr "Unknown API error"))).jsToString)
  if !data.truthy || jsKeysLen data == 0 then
    throw ("No data returned for " ++ quoteId ++ ". This route might not be available.")
  if isQuirkyProvider quoteId then
    return PrepOk.quirky (← quirkyExtract quoteId data)
  else if isSolanaChain srcTokenBlockchain then
    return PrepOk.solana (← solanaExtract data)
  else
    return PrepOk.evm (← evmExtract data)

/-- The informational text of the Stargate manual-construction
short-circuit (the handler's `textResponse` verbatim). -/
def stargateText (args : PrepareArgs) : String :=
  ("Stargate Bridge Swap Information:\n\n" ++
   "Chain: " ++ args.srcTokenBlockchain ++ "\n" ++
   "Provider: " ++ args.quoteId ++ "\n\n" ++
   "Stargate bridging from " ++ args.srcTokenBlockchain ++ " to " ++
     args.dstTokenBlockchain ++ " requires:\n" ++
   "1. Amount: " ++ args.srcTokenAmount ++ " " ++
     (if args.srcTokenBlockchain = "OPTIMISM" then "ETH" else args.srcTokenBlockchain) ++ "\n" ++
   "2. Destination: " ++ args.dstTokenBlockchain ++ "\n\n") ++
  "This provider currently requires manual transaction construction.\n" ++
  ("Please use the Stargate Bridge UI directly at https://stargate.finance/transfer\n" ++
   "\nAlternatively, try using another provider like LIFI or SQUIDROUTER.")

/-- What `prepareRubicBridgeSwap` decides before any network traffic:
either the Stargate short-circuit's informational result, or the swap
request body to POST. -/
inductive PreparePlan where
  | manual (info : String)
  | request (body : SwapRequestBody)

/-- The pre-network phase of `prepareRubicBridgeSwap`: the Stargate check
comes first (even before address resolution); otherwise resolve the
acting address and assemble the swap request body. -/
def preparePlan (derive : String → Except String String) (env : Env)
    (args : PrepareArgs) : Except String PreparePlan :=
  if isStargate args.quoteId then
    .ok (.manual (stargateText args))
  else do
    let userFromAddress ← resolveFromAddress derive env args.fromAddress
    .ok (.request (mkSwapRequestBody args userFromAddress))

/-- The full `prepareRubicBridgeSwap` pipeline: the manual short-circuit
returns without consulting the response at all; otherwise the response
is processed as above. -/
def prepareOutcome (derive : String → Except String String) (env : Env)
    (args : PrepareArgs) (resp : HttpResp) : Except String PrepOk := do
  match ← preparePlan derive env args with
  | .manual info => return .manual info
  | .request _ => processSwapResponse args.quoteId args.srcTokenBlockchain resp

/-- The whole `prepareRubicBridgeSwap` tool handler: the `try`/`catch`
renders every thrown error as a "Failed to prepare bridge swap" text
result (success texts abbreviated to the fields the source prints). -/
def prepareTool (derive : String → Except String String) (env : Env)
    (args : PrepareArgs) (resp : HttpResp) : String :=
  match prepareOutcome derive env args resp with
  | .ok (.manual info) => info
  | .ok (.quirky tx) =>
      "Transaction Details for " ++ args.quoteId ++ " Bridge Swap:\n\nTo Address: " ++
        tx.toF.jsToString ++ "\nData: " ++ (tx.dataF.jsToString.take 40) ++ "...\nValue: " ++
        tx.valueF.jsToString
  | .ok (.solana d) =>
      "Transaction Details for Solana Bridge Swap:\n\nTransaction Data: " ++
        (d.jsToString.take 40) ++ "..."
  | .ok (.evm transaction) =>
      "Transaction Details for Bridge Swap:\n\nTo Address: " ++
        (transaction.getf "to").jsToString ++ "\nData: " ++
        ((transaction.getf "data").jsToString.take 40) ++ "...\nValue: " ++
        (jsOr (transaction.getf "value") (.jstr "0")).jsToString
  | .error e => "Failed to prepare bridge swap: " ++ e

/-! ## Spec-side definitions

For the refinement comparison of the quirky-provider target-address
probing, the design document's own description is embedded separately
below (candidate locations in the order the document lists them, and a
deep scan accepting only genuinely hexadecimal addresses), to be
compared with the source-translated `quirkyTxData` / `findToAddress`. -/

/-- A hexadecimal digit. -/
def isHexDigit (c : Char) : Bool :=
  c.isDigit || ( 'a' ≤ c && c ≤ 'f' ) || ( 'A' ≤ c && c ≤ 'F' )

mutual
/-- The deep scan as the design document describes it: bounded to depth
less or equal 3, accepting only a string of the 20-byte hex address form
(`0x` plus 40 hex characters, length 42) under a key named `to`,
`targetAddress` or `contractAddress`. -/
def specFindTo : Json → Nat → String
  | obj, depth =>
    if depth > 3 then ""
    else
      match obj with
      | .jobj fs => specFindToEntries fs depth
      | .jarr es => specFindToArr es depth
      | _ => ""
/-- Field loop of `specFindTo`. -/
def specFindToEntries : List (String × Json) → Nat → String
  | [], _ => ""
  | (key, v) :: rest, depth =>
    let hit :=
      match v with
      | .jstr s =>
        if jsStartsWith s "0x" && s.length == 42 && (s.toList.drop 2).all isHexDigit then
          if key = "to" || key = "targetAddress" || key = "contractAddress" then s else ""
        else ""
      | .jnum _ => ""
      | .jbool _ => ""
      | other => specFindTo other (depth + 1)
    if hit = "" then specFindToEntries rest depth else hit
/-- Element loop of `specFindTo`. -/
def specFindToArr : List Json → Nat → String
  | [], _ => ""
  | v :: rest, depth =>
    let hit :=
      match v with
      | .jstr _ => ""
      | .jnum _ => ""
      | .jbool _ => ""
      | other => specFindTo other (depth + 1)
    if hit = "" then specFindToArr rest depth else hit
end

/-- First truthy value of a candidate list (empty string when none). -/
def firstTruthyJ : List Json → Json
  | [] => .jstr ""
  | x :: rest => if x.truthy then x else firstTruthyJ rest

/-- The quirky-provider target address as the design document describes
it: the first non-empty hit probing `transaction.{to,targetAddress}`,
then `tx.{to,targetAddress}`, then `transactionRequest.{to,targetAddress}`
in that order, falling back to the hex-validated deep scan. -/
def specQuirkyTo (data : Json) : Json :=
  let t := data.getf "transaction"
  let u := data.getf "tx"
  let r := data.getf "transactionRequest"
  let c := firstTruthyJ
    [t.getf "to", t.getf "targetAddress", u.getf "to", u.getf "targetAddress",
     r.getf "to", r.getf "targetAddress"]
  if c.truthy then c else .jstr (specFindTo data 0)

/-- The candidate locations the source actually probes for the target
address, in the source's order (note `targetAddress` before `to` under
`transaction`, and the extra `transaction.routeTransaction?.targetAddress`). -/
def quirkyToCandidates (data : Json) : List Json :=
  let t := data.getf "transaction"
  let u := data.getf "tx"
  let r := data.getf "transactionRequest"
  [t.getf "targetAddress", t.getf "to", (t.getf "routeTransaction").getf "targetAddress",
   u.getf "to", u.getf "targetAddress", r.getf "to", r.getf "targetAddress"]

/-- Whether the quirky handler's up-front guard (`some transaction-bearing
key is truthy`) lets extraction proceed. -/
def quirkyGuard (data : Json) : Bool :=
  (data.getf "transaction").truthy || (data.getf "tx").truthy ||
    (data.getf "transactionRequest").truthy

/-! ## Helper lemmas -/

/-- A falsy value is never an object, so reading any property of it
yields `undefined`. -/
theorem getf_of_not_truthy (j : Json) (k : String) (h : j.truthy = false) :
    j.getf k = .jnull := by
  cases j <;> simp_all [Json.truthy, Json.getf]

/-- Reading a property of anything but `null`/`undefined` succeeds. -/
theorem getfE_of_ne_null (j : Json) (k : String) (h : j ≠ .jnull) :
    j.getfE k = .ok (j.getf k) := by
  cases j <;> simp_all [Json.getfE]

/-! ## Claims -/

/-- C3: address resolution follows the fixed fallback order — a
non-empty, non-placeholder explicit address is returned unchanged; a
placeholder falls back to the configured `ETH_PUBLIC_ADDRESS` when one
is set; with no public address the address derived from the configured
private key is returned (never the placeholder itself); and when every
source fails, resolution fails with an error naming the sources tried. -/
theorem claim_C3_address_resolution (derive : String → Except String String)
    (env : Env) (explicit : String) :
    (explicit ≠ "" → isPlaceholder explicit = false →
      resolveFromAddress derive env (some explicit) = .ok explicit)
    ∧ (∀ a, isPlaceholder explicit = true → envVar env.ethPublicAddress = some a →
      resolveFromAddress derive env (some explicit) = .ok a)
    ∧ (∀ k d, isPlaceholder explicit = true → envVar env.ethPublicAddress = none →
      envVar env.ethPrivateKey = some k →
      derive (if jsStartsWith k "0x" then k else "0x" ++ k) = .ok d →
      resolveFromAddress derive env (some explicit) = .ok d)
    ∧ (isPlaceholder explicit = true → envVar env.ethPublicAddress = none →
      envVar env.ethPrivateKey = none →
      resolveFromAddress derive env (some explicit) =
        .error ("No valid fromAddress provided and failed to get from private key: Error: " ++
          "Neither ETH_PUBLIC_ADDRESS nor ETH_PRIVATE_KEY found in environment variables")) := by
  refine ⟨fun h1 h2 => ?_, fun a hp hpub => ?_, fun k d hp hpub hkey hder => ?_,
    fun hp hpub hkey => ?_⟩
  · simp [resolveFromAddress, sanitizeAddress, h1, h2]
  · have hne : explicit ≠ "" := by
      rintro rfl; simp [isPlaceholder] at hp
    simp [resolveFromAddress, sanitizeAddress, hne, hp, getWalletAddress, hpub]
  · have hne : explicit ≠ "" := by
      rintro rfl; simp [isPlaceholder] at hp
    simp [resolveFromAddress, sanitizeAddress, hne, hp, getWalletAddress, hpub, hkey, hder]
  · have hne : explicit ≠ "" := by
      rintro rfl; simp [isPlaceholder] at hp
    simp [resolveFromAddress, sanitizeAddress, hne, hp, getWalletAddress, hpub, hkey]

/-- C3 witness: for the placeholder
`0x0000000000000000000000000000000000000001` with no public address and
a derivable key, the derived address is returned, never the placeholder. -/
theorem claim_C3_address_resolution_witness :
    resolveFromAddress (fun _ => .ok "0xDERIVED") ⟨none, some "abc"⟩
      (some "0x0000000000000000000000000000000000000001") = .ok "0xDERIVED"
    ∧ "0xDERIVED" ≠ "0x0000000000000000000000000000000000000001" :=
  ⟨(claim_C3_address_resolution (fun _ => .ok "0xDERIVED") ⟨none, some "abc"⟩
      "0x0000000000000000000000000000000000000001").2.2.1 "abc" "0xDERIVED"
      (by decide) rfl rfl rfl,
   by decide⟩

/-- C9: for any slippage percentage in the accepted range, both the
quote-request body and the swap-request body transmit exactly `p / 100`
as `slippageTolerance` — the conversion from caller-facing percentage to
fraction happens at every serialization boundary that carries it. -/
theorem claim_C9_slippage_fraction (p : ℚ) (hlo : 1 / 100 ≤ p) (hhi : p ≤ 50)
    (derive : String → Except String String) (env : Env)
    (qargs : QuoteArgs) (pargs : PrepareArgs) (addr : String) :
    (mkQuoteRequestBody derive env
        { qargs with slippageTolerance := p }).slippageTolerance = p / 100
    ∧ (mkSwapRequestBody { pargs with slippageTolerance := p }
        addr).slippageTolerance = p / 100 := by
  exact ⟨rfl, rfl⟩

/-- C9 witness at the default `p = 1` (the transmitted fraction is
`1/100`, within range). -/
theorem claim_C9_slippage_fraction_witness :
    (1 / 100 ≤ (1 : ℚ) ∧ (1 : ℚ) ≤ 50)
    ∧ (mkQuoteRequestBody (fun _ => .error "no key") ⟨none, none⟩
        { srcTokenAddress := "0x0", srcTokenBlockchain := "ETH", srcTokenAmount := "1",
          dstTokenAddress := "0x0", dstTokenBlockchain := "BSC",
          slippageTolerance := 1 }).slippageTolerance = 1 / 100 :=
  ⟨⟨by norm_num, by norm_num⟩,
   (claim_C9_slippage_fraction 1 (by norm_num) (by norm_num)
      (fun _ => .error "no key") ⟨none, none⟩
      { srcTokenAddress := "0x0", srcTokenBlockchain := "ETH", srcTokenAmount := "1",
        dstTokenAddress := "0x0", dstTokenBlockchain := "BSC" }
      { quoteId := "Q", srcTokenAddress := "0x0", srcTokenBlockchain := "ETH",
        srcTokenAmount := "1", dstTokenAddress := "0x0", dstTokenBlockchain := "BSC" }
      "0xME").1⟩

/-- C8: the status switch maps each recognized raw token (pending,
indexing, revert, failed, claim, success, error) to a fixed non-empty
state-specific explanation — the seven explanations are pairwise
distinct and none coincides with the catch-all — while every
unrecognized token gets the catch-all explanation, without an error:
the status pipeline still returns an ordinary view whose state is the
upper-cased raw token. -/
theorem claim_C8_status_mapping :
    (∀ s, s ∉ recognizedStatuses → statusExplanation s = unknownStatusExplanation)
    ∧ recognizedStatuses.Pairwise (fun a b => statusExplanation a ≠ statusExplanation b)
    ∧ (∀ s ∈ recognizedStatuses,
        statusExplanation s ≠ "" ∧ statusExplanation s ≠ unknownStatusExplanation)
    ∧ statusExplanation "success" =
        "The transaction was completed successfully! Your tokens have been sent to the destination address."
    ∧ (∀ resp data s, resp.ok = true → resp.json = some data →
        data.getf "status" = .jstr s →
        statusOutcome resp = .ok { state := jsToUpper s, explanation := statusExplanation s }) := by
  refine ⟨fun s hs => ?_, by decide, by decide, rfl, fun resp data s hok hjson hst => ?_⟩
  · simp only [recognizedStatuses, List.mem_cons, List.not_mem_nil, or_false] at hs
    push_neg at hs
    obtain ⟨h1, h2, h3, h4, h5, h6, h7⟩ := hs
    simp [statusExplanation, h1, h2, h3, h4, h5, h6, h7]
  · have hdata : data ≠ .jnull := by
      intro h; subst h; simp [Json.getf] at hst
    simp [statusOutcome, hok, hjson, respJson, bind, Except.bind, pure, Except.pure,
      getfE_of_ne_null data "status" hdata, hst]

/-- C8 witness: raw `"success"` maps to terminal state `SUCCESS` with a
non-empty explanation, and the unrecognized raw token `"foo"` maps to
the catch-all explanation without failing. -/
theorem claim_C8_status_mapping_witness :
    statusExplanation "foo" = unknownStatusExplanation
    ∧ statusOutcome ⟨true, 200, "x", some (.jobj [("status", Json.jstr "success")])⟩
        = .ok { state := "SUCCESS",
                explanation := "The transaction was completed successfully! Your tokens have been sent to the destination address." } :=
  ⟨claim_C8_status_mapping.1 "foo" (by decide),
   claim_C8_status_mapping.2.2.2.2 ⟨true, 200, "x", some (.jobj [("status", Json.jstr "success")])⟩
     (.jobj [("status", Json.jstr "success")]) "success" rfl rfl rfl⟩

/-- C5: when the quote id names a manual-construction provider
(case-insensitive substring `STARGATE`), prepare short-circuits before
any network activity — the pre-network phase already yields the
informational manual-construction result, the full pipeline's outcome
is that result whatever the HTTP response is (so no swap request is
needed and no extraction path runs), and the informational text carries
the "requires manual transaction construction" notice. -/
theorem claim_C5_stargate_short_circuit (derive : String → Except String String)
    (env : Env) (args : PrepareArgs) (resp resp' : HttpResp)
    (h : isStargate args.quoteId = true) :
    preparePlan derive env args = .ok (.manual (stargateText args))
    ∧ prepareOutcome derive env args resp = .ok (.manual (stargateText args))
    ∧ prepareOutcome derive env args resp = prepareOutcome derive env args resp'
    ∧ (∃ a b, stargateText args =
        a ++ ("This provider currently requires manual transaction construction.\n" ++ b)) := by
  have hplan : preparePlan derive env args = .ok (.manual (stargateText args)) := by
    simp [preparePlan, h]
  refine ⟨hplan, ?_, ?_, ?_⟩
  · simp [prepareOutcome, hplan, bind, Except.bind, pure, Except.pure]
  · simp [prepareOutcome, hplan, bind, Except.bind, pure, Except.pure]
  · exact ⟨_, _, String.append_assoc _ _ _⟩

/-- C5 witness: a concrete STARGATE quote id short-circuits to the
manual-construction result for two different (even failing) responses. -/
theorem claim_C5_stargate_short_circuit_witness :
    isStargate "ETH_STARGATE_V2:42" = true
    ∧ prepareOutcome (fun _ => .error "no key") ⟨none, none⟩
        { quoteId := "ETH_STARGATE_V2:42", srcTokenAddress := "0x0",
          srcTokenBlockchain := "ETH", srcTokenAmount := "1",
          dstTokenAddress := "0x0", dstTokenBlockchain := "BSC" }
        ⟨false, 500, "boom", none⟩
      = .ok (.manual (stargateText
        { quoteId := "ETH_STARGATE_V2:42", srcTokenAddress := "0x0",
          srcTokenBlockchain := "ETH", srcTokenAmount := "1",
          dstTokenAddress := "0x0", dstTokenBlockchain := "BSC" })) :=
  ⟨rfl,
   (claim_C5_stargate_short_circuit (fun _ => .error "no key") ⟨none, none⟩
      { quoteId := "ETH_STARGATE_V2:42", srcTokenAddress := "0x0",
        srcTokenBlockchain := "ETH", srcTokenAmount := "1",
        dstTokenAddress := "0x0", dstTokenBlockchain := "BSC" }
      ⟨false, 500, "boom", none⟩ ⟨true, 200, "ok", some (.jobj [])⟩ rfl).2.1⟩

/-- C2 counterexample: a bare JSON object that carries an `id` field
whose value is the empty string is NOT normalized to a one-element
sequence — the handler's `if (rawData.id)` truthiness test sends it to
the "no routes / invalid format" branch, whose sequence is empty. -/
theorem claim_C2_counterexample :
    lookupField [("id", Json.jstr "")] "id" = some (.jstr "")
    ∧ classifyQuoteAll (.jobj [("id", Json.jstr "")]) = .ok .invalid
    ∧ quotesOf QuoteAllView.invalid = []
    ∧ ([] : List Json).length ≠ [Json.jobj [("id", Json.jstr "")]].length :=
  ⟨rfl, rfl, rfl, by decide⟩

/-- C2 (amended): `getAllQuotes` normalizes every upstream body to a
sequence — a bare object with a truthy (non-empty) `id` yields the
one-element sequence wrapping it; a bare object without one yields the
empty sequence, still without an error; a non-empty JSON array yields
that array unchanged; and the empty array `[]` yields `[]` with no
error raised (a valid "no route found" outcome), while an HTTP failure
is a distinct hard error carrying the upstream status and body. -/
theorem claim_C2_quoteall_normalization (resp : HttpResp) (raw : Json) :
    (∀ fs, raw = .jobj fs → (raw.getf "id").truthy = true →
      classifyQuoteAll raw = .ok (.single raw) ∧ quotesOf (.single raw) = [raw])
    ∧ (∀ fs, raw = .jobj fs → (raw.getf "id").truthy = false →
      classifyQuoteAll raw = .ok .invalid ∧ quotesOf QuoteAllView.invalid = [])
    ∧ (∀ es, raw = .jarr es → es ≠ [] →
      classifyQuoteAll raw = .ok (.multi es) ∧ quotesOf (.multi es) = es)
    ∧ (raw = .jarr [] →
      classifyQuoteAll raw = .ok .noRoutes ∧ quotesOf QuoteAllView.noRoutes = [])
    ∧ (resp.ok = true → resp.json = some (.jarr []) → quotesOutcome resp = .ok .noRoutes)
    ∧ (resp.ok = false → quotesOutcome resp =
        .error ("Rubic API error (" ++ toString resp.status ++ "): " ++ resp.text)) := by
  refine ⟨fun fs hraw hid => ?_, fun fs hraw hid => ?_, fun es hraw hne => ?_,
    fun hraw => ?_, fun hok hjson => ?_, fun hok => ?_⟩
  · subst hraw
    simp [classifyQuoteAll, Json.getfE, hid, bind, Except.bind, quotesOf]
  · subst hraw
    simp [classifyQuoteAll, Json.getfE, hid, bind, Except.bind, quotesOf]
  · subst hraw
    simp [classifyQuoteAll, List.length_eq_zero, hne, quotesOf]
  · subst hraw
    simp [classifyQuoteAll, quotesOf]
  · simp [quotesOutcome, hok, hjson, respJson, bind, Except.bind, pure, Except.pure,
      classifyQuoteAll]
  · simp [quotesOutcome, hok, bind, Except.bind]

/-- C2 witness: a bare object with a non-empty id wraps to a one-element
sequence, `[]` classifies as the no-routes outcome with no error. -/
theorem claim_C2_quoteall_normalization_witness :
    (classifyQuoteAll (.jobj [("id", Json.jstr "q-1")]) = .ok (.single (.jobj [("id", Json.jstr "q-1")]))
      ∧ quotesOf (.single (.jobj [("id", Json.jstr "q-1")])) = [.jobj [("id", Json.jstr "q-1")]])
    ∧ quotesOutcome ⟨true, 200, "[]", some (.jarr [])⟩ = .ok .noRoutes :=
  ⟨(claim_C2_quoteall_normalization ⟨true, 200, "[]", some (.jarr [])⟩
      (.jobj [("id", Json.jstr "q-1")])).1 [("id", Json.jstr "q-1")] rfl rfl,
   (claim_C2_quoteall_normalization ⟨true, 200, "[]", some (.jarr [])⟩
      (.jobj [("id", Json.jstr "q-1")])).2.2.2.2.1 rfl rfl⟩

/-- C4 counterexample: a 2xx body that contains a string-valued
`message` field — the empty string — is NOT surfaced as a
provider-reported error: the `data.message && typeof data.message ===
\x27string\x27` truthiness test skips it, and prepare proceeds to
extraction, failing later with an unrelated TypeError instead of the
"API returned an error" message. -/
theorem claim_C4_counterexample :
    lookupField [("message", Json.jstr "")] "message" = some (.jstr "")
    ∧ Json.isStr (.jstr "") = true
    ∧ processSwapResponse "QUOTE1" "ETH" ⟨true, 200, "x", some (.jobj [("message", Json.jstr "")])⟩
        = .error "TypeError: Cannot read properties of null (reading \x27to\x27)"
    ∧ jsIncludes "TypeError: Cannot read properties of null (reading \x27to\x27)"
        "API returned an error" = false :=
  ⟨rfl, rfl, rfl, rfl⟩

/-- C4 (amended): a 2xx body with a truthy `error` field, a truthy
`statusCode` field, or a truthy string-valued `message` field makes
prepare fail with the provider-reported error text
(`message || error || "Unknown API error"`); and a parsed body that is
an object with no keys fails as "no data returned" rather than
yielding a transaction. -/
theorem claim_C4_error_and_empty_body (quoteId srcChain : String)
    (resp : HttpResp) (data : Json) (hok : resp.ok = true)
    (hjson : resp.json = some data) (hdata : data ≠ .jnull) :
    (((data.getf "error").truthy || (data.getf "statusCode").truthy ||
        ((data.getf "message").truthy && (data.getf "message").isStr)) = true →
      processSwapResponse quoteId srcChain resp =
        .error ("API returned an error: " ++
          (jsOr (data.getf "message")
            (jsOr (data.getf "error") (.jstr "Unknown API error"))).jsToString))
    ∧ (data = .jobj [] →
      processSwapResponse quoteId srcChain resp =
        .error ("No data returned for " ++ quoteId ++ ". This route might not be available.")) := by
  constructor
  · intro hcond
    simp [processSwapResponse, hok, hjson, bind, Except.bind, pure, Except.pure,
      getfE_of_ne_null data "error" hdata, getfE_of_ne_null data "statusCode" hdata,
      getfE_of_ne_null data "message" hdata, hcond]
  · rintro rfl
    simp [processSwapResponse, hok, hjson, bind, Except.bind, pure, Except.pure,
      Json.getfE, Json.getf, lookupField, Json.truthy, Json.isStr, jsOr, jsKeysLen]

/-- C4 witness: a body `\x7b"error": "no route"\x7d` fails with the
provider text, and the empty body `\x7b\x7d` fails as no-data. -/
theorem claim_C4_error_and_empty_body_witness :
    processSwapResponse "Q7" "ETH" ⟨true, 200, "x", some (.jobj [("error", Json.jstr "no route")])⟩
      = .error "API returned an error: no route"
    ∧ processSwapResponse "Q7" "ETH" ⟨true, 200, "x", some (.jobj [])⟩
      = .error "No data returned for Q7. This route might not be available." :=
  by
  constructor
  · have h := (claim_C4_error_and_empty_body "Q7" "ETH"
      ⟨true, 200, "x", some (.jobj [("error", Json.jstr "no route")])⟩
      (.jobj [("error", Json.jstr "no route")]) rfl rfl (by simp)).1 rfl
    simpa [Json.getf, lookupField, jsOr, Json.truthy, Json.jsToString] using h
  · exact (claim_C4_error_and_empty_body "Q7" "ETH" ⟨true, 200, "x", some (.jobj [])⟩
      (.jobj []) rfl rfl (by simp)).2 rfl

/-- C7 counterexample: with `receiver` unset, the transmitted swap body
does NOT carry the resolved wallet address as the receiver — the spread
`...(receiver ? \x7b receiver \x7d : \x7b\x7d)` omits the field
entirely, even though the resolved address ("0xME" here, resolved from
the configured public address) fills `fromAddress`/`walletAddress`. -/
theorem claim_C7_counterexample :
    resolveFromAddress (fun _ => .error "no key") ⟨some "0xME", none⟩ none = .ok "0xME"
    ∧ (mkSwapRequestBody
        { quoteId := "Q", srcTokenAddress := "0x0", srcTokenBlockchain := "ETH",
          srcTokenAmount := "1", dstTokenAddress := "0x0", dstTokenBlockchain := "BSC" }
        "0xME").receiver = none
    ∧ (mkSwapRequestBody
        { quoteId := "Q", srcTokenAddress := "0x0", srcTokenBlockchain := "ETH",
          srcTokenAmount := "1", dstTokenAddress := "0x0", dstTokenBlockchain := "BSC" }
        "0xME").receiver ≠ some "0xME" :=
  ⟨rfl, rfl, by simp [mkSwapRequestBody]⟩

/-- C7 (amended): when the caller leaves `receiver` unset (or empty),
the transmitted swap body omits the `receiver` field — the resolved
wallet address is transmitted as `fromAddress` and `walletAddress`
instead, leaving the receiver default to the provider; when a non-empty
`receiver` is provided, the body carries exactly the caller's value.
The body the pipeline actually transmits is the one assembled from the
resolved address. -/
theorem claim_C7_receiver_body (args : PrepareArgs) (addr : String) :
    ((args.receiver = none ∨ args.receiver = some "") →
      (mkSwapRequestBody args addr).receiver = none)
    ∧ (∀ r, args.receiver = some r → r ≠ "" →
      (mkSwapRequestBody args addr).receiver = some r)
    ∧ (mkSwapRequestBody args addr).fromAddress = addr
    ∧ (mkSwapRequestBody args addr).walletAddress = addr
    ∧ (∀ derive env, isStargate args.quoteId = false →
      resolveFromAddress derive env args.fromAddress = .ok addr →
      preparePlan derive env args = .ok (.request (mkSwapRequestBody args addr))) := by
  refine ⟨fun h => ?_, fun r hr hne => ?_, rfl, rfl, fun derive env hsg hres => ?_⟩
  · rcases h with h | h <;> simp [mkSwapRequestBody, h]
  · simp [mkSwapRequestBody, hr, hne]
  · simp [preparePlan, hsg, hres, bind, Except.bind, pure, Except.pure]

/-- C7 witness: a provided non-empty receiver is carried verbatim, an
unset one is omitted, and the plan carries the assembled body. -/
theorem claim_C7_receiver_body_witness :
    (mkSwapRequestBody
      { quoteId := "Q", srcTokenAddress := "0x0", srcTokenBlockchain := "ETH",
        srcTokenAmount := "1", dstTokenAddress := "0x0", dstTokenBlockchain := "BSC",
        receiver := some "0xRCV" } "0xME").receiver = some "0xRCV"
    ∧ preparePlan (fun _ => .error "no key") ⟨some "0xME", none⟩
        { quoteId := "Q", srcTokenAddress := "0x0", srcTokenBlockchain := "ETH",
          srcTokenAmount := "1", dstTokenAddress := "0x0", dstTokenBlockchain := "BSC" }
      = .ok (.request (mkSwapRequestBody
        { quoteId := "Q", srcTokenAddress := "0x0", srcTokenBlockchain := "ETH",
          srcTokenAmount := "1", dstTokenAddress := "0x0", dstTokenBlockchain := "BSC" }
        "0xME")) :=
  ⟨(claim_C7_receiver_body
      { quoteId := "Q", srcTokenAddress := "0x0", srcTokenBlockchain := "ETH",
        srcTokenAmount := "1", dstTokenAddress := "0x0", dstTokenBlockchain := "BSC",
        receiver := some "0xRCV" } "0xME").2.1 "0xRCV" rfl (by decide),
   (claim_C7_receiver_body
      { quoteId := "Q", srcTokenAddress := "0x0", srcTokenBlockchain := "ETH",
        srcTokenAmount := "1", dstTokenAddress := "0x0", dstTokenBlockchain := "BSC" }
      "0xME").2.2.2.2 (fun _ => .error "no key") ⟨some "0xME", none⟩ rfl rfl⟩

/-- C1: the extraction paths never return a transaction descriptor with
a missing mandatory field.  On the account-based (EVM) path a success
always carries truthy `transaction.to` and `transaction.data`, and a
falsy `to` (resp. `data`) fails with an error naming the missing field
and echoing `JSON.stringify` of the raw transaction object; on the
opaque-payload (Solana) path a success always carries a truthy
`transaction.data`, and a falsy one fails echoing the raw response.
Nothing is ever silently defaulted. -/
theorem claim_C1_mandatory_fields (data : Json) :
    (∀ tx, evmExtract data = .ok tx →
      tx = data.getf "transaction"
        ∧ (tx.getf "to").truthy = true ∧ (tx.getf "data").truthy = true)
    ∧ (∀ tx, data.getf "transaction" = tx → tx ≠ .jnull → (tx.getf "to").truthy = false →
      evmExtract data = .error ("Missing \x27to\x27 address in transaction data: " ++ tx.stringify))
    ∧ (∀ tx, data.getf "transaction" = tx → tx ≠ .jnull → (tx.getf "to").truthy = true →
      (tx.getf "data").truthy = false →
      evmExtract data = .error ("Missing \x27data\x27 in transaction data: " ++ tx.stringify))
    ∧ (∀ d, solanaExtract data = .ok d →
      d.truthy = true ∧ d = (data.getf "transaction").getf "data")
    ∧ (data.getf "transaction" ≠ .jnull →
      ((data.getf "transaction").getf "data").truthy = false →
      solanaExtract data = .error ("Missing transaction data in Solana response: " ++ data.stringify)) := by
  refine ⟨fun tx hok => ?_, fun tx htx hne hto => ?_, fun tx htx hne hto hdata => ?_,
    fun d hok => ?_, fun hne hdata => ?_⟩
  · by_cases hnull : data.getf "transaction" = .jnull
    · simp [evmExtract, hnull, Json.getfE, bind, Except.bind] at hok
    · rw [evmExtract] at hok
      simp only [getfE_of_ne_null _ _ hnull, bind, Except.bind] at hok
      by_cases h1 : ((data.getf "transaction").getf "to").truthy
      · by_cases h2 : ((data.getf "transaction").getf "data").truthy
        · simp [h1, h2, pure, Except.pure] at hok
          exact ⟨hok.symm, by simp [← hok, h1], by simp [← hok, h2]⟩
        · simp [h1, h2, pure, Except.pure] at hok
      · simp [h1] at hok
  · subst htx
    rw [evmExtract]
    simp [getfE_of_ne_null _ _ hne, bind, Except.bind, pure, Except.pure, hto]
  · subst htx
    rw [evmExtract]
    simp [getfE_of_ne_null _ _ hne, bind, Except.bind, pure, Except.pure, hto, hdata]
  · by_cases hnull : data.getf "transaction" = .jnull
    · simp [solanaExtract, hnull, Json.getfE, bind, Except.bind] at hok
    · rw [solanaExtract] at hok
      simp only [getfE_of_ne_null _ _ hnull, bind, Except.bind] at hok
      by_cases h1 : ((data.getf "transaction").getf "data").truthy
      · simp [h1, pure, Except.pure] at hok
        exact ⟨by simp [← hok, h1], hok.symm⟩
      · simp [h1] at hok
  · rw [solanaExtract]
    simp [getfE_of_ne_null _ _ hne, bind, Except.bind, pure, Except.pure, hdata]

/-- C1 witness: a response whose transaction lacks `to` fails on the EVM
path naming `to` and echoing the transaction object; one whose
transaction lacks `data` fails on the Solana path; and a complete
transaction is returned with both fields truthy. -/
theorem claim_C1_mandatory_fields_witness :
    evmExtract (.jobj [("transaction", .jobj [("data", Json.jstr "0xbb")])])
      = .error ("Missing \x27to\x27 address in transaction data: \x7b\"data\":\"0xbb\"\x7d")
    ∧ solanaExtract (.jobj [("transaction", .jobj [("to", Json.jstr "0xAA")])])
      = .error ("Missing transaction data in Solana response: " ++
          "\x7b\"transaction\":\x7b\"to\":\"0xAA\"\x7d\x7d")
    ∧ ((Json.jobj [("to", Json.jstr "0xAA"), ("data", Json.jstr "0xbb")]).getf "to").truthy = true :=
  ⟨by
    have h := (claim_C1_mandatory_fields
      (.jobj [("transaction", .jobj [("data", Json.jstr "0xbb")])])).2.1
      (.jobj [("data", Json.jstr "0xbb")]) rfl (by simp) rfl
    simpa using h,
   by
    have h := (claim_C1_mandatory_fields
      (.jobj [("transaction", .jobj [("to", Json.jstr "0xAA")])])).2.2.2.2
      (by simp [Json.getf, lookupField]) rfl
    simpa using h,
   rfl⟩

/-- `jsOr` is associative. -/
theorem jsOr_assoc (a b c : Json) : jsOr (jsOr a b) c = jsOr a (jsOr b c) := by
  by_cases ha : a.truthy <;> by_cases hb : b.truthy <;> simp [jsOr, ha, hb]

/-- A `firstTruthyJ` over an appended list splits as `jsOr`. -/
theorem firstTruthyJ_append (l1 l2 : List Json) :
    firstTruthyJ (l1 ++ l2) = jsOr (firstTruthyJ l1) (firstTruthyJ l2) := by
  induction l1 with
  | nil => simp [firstTruthyJ, jsOr, Json.truthy]
  | cons x xs ih =>
    by_cases hx : x.truthy <;> simp [firstTruthyJ, hx, jsOr, ih]

/-- A falsy `firstTruthyJ` result is the empty-string fallback. -/
theorem firstTruthyJ_of_falsy :
    ∀ l : List Json, (firstTruthyJ l).truthy = false → firstTruthyJ l = .jstr ""
  | [], _ => rfl
  | x :: xs, h => by
    by_cases hx : x.truthy
    · rw [firstTruthyJ, if_pos hx] at h; simp [hx] at h
    · rw [firstTruthyJ, if_neg hx] at h ⊢
      exact firstTruthyJ_of_falsy xs h

/-- The final `if (!txData.to) txData.to = findToAddress(data)` step is
an `||`-default. -/
theorem if_not_truthy (x y : Json) : (if !x.truthy then y else x) = jsOr x y := by
  by_cases h : x.truthy <;> simp [h, jsOr]

/-- One probing stage (`if (!txData.to && obj) txData = probe(obj)`)
is an `||`-default, for stage values that are empty when skipped. -/
theorem step_absorb (x y : Json) (b : Bool)
    (hx : x.truthy = false → x = .jstr "") (hy : b = false → y = .jstr "") :
    (if !x.truthy && b then y else x) = jsOr x y := by
  by_cases h : x.truthy
  · simp [h, jsOr]
  · cases b
    · simp [h, jsOr, hx (by simpa using h), hy rfl]
    · simp [h, jsOr]

/-- The sequential probing in `quirkyTxData` computes exactly the first
truthy value of the source's candidate list, with the `findToAddress`
scan as last resort. -/
theorem quirkyTo_characterization (data : Json) :
    (quirkyTxData data).toF =
      jsOr (firstTruthyJ (quirkyToCandidates data)) (.jstr (findToAddress data 0)) := by
  have e3 : ∀ x y z : Json, jsOr x (jsOr y (jsOr z (.jstr ""))) = firstTruthyJ [x, y, z] :=
    fun _ _ _ => rfl
  have e2 : ∀ x y : Json, jsOr x (jsOr y (.jstr "")) = firstTruthyJ [x, y] :=
    fun _ _ => rfl
  have s1 : (if (data.getf "transaction").truthy then
        jsOr ((data.getf "transaction").getf "targetAddress")
          (jsOr ((data.getf "transaction").getf "to")
            (jsOr (((data.getf "transaction").getf "routeTransaction").getf "targetAddress")
              (.jstr "")))
      else Json.jstr "") =
      firstTruthyJ [(data.getf "transaction").getf "targetAddress",
        (data.getf "transaction").getf "to",
        ((data.getf "transaction").getf "routeTransaction").getf "targetAddress"] := by
    by_cases ht : (data.getf "transaction").truthy
    · simp [ht, e3]
    · have h := fun k => getf_of_not_truthy (data.getf "transaction") k (by simpa using ht)
      rw [if_neg ht, h "targetAddress", h "to", h "routeTransaction"]
      simp [firstTruthyJ, Json.getf, Json.truthy]
  have hy1 : (data.getf "tx").truthy = false →
      jsOr ((data.getf "tx").getf "to")
        (jsOr ((data.getf "tx").getf "targetAddress") (.jstr "")) = .jstr "" := by
    intro h
    have hg := fun k => getf_of_not_truthy (data.getf "tx") k h
    rw [hg "to", hg "targetAddress"]
    simp [jsOr, Json.truthy]
  have hy2 : (data.getf "transactionRequest").truthy = false →
      jsOr ((data.getf "transactionRequest").getf "to")
        (jsOr ((data.getf "transactionRequest").getf "targetAddress") (.jstr "")) = .jstr "" := by
    intro h
    have hg := fun k => getf_of_not_truthy (data.getf "transactionRequest") k h
    rw [hg "to", hg "targetAddress"]
    simp [jsOr, Json.truthy]
  simp only [quirkyTxData, apply_ite TxJ.toF]
  rw [s1]
  rw [step_absorb _ _ _ (firstTruthyJ_of_falsy _) (fun h => hy1 (by simpa using h))]
  rw [e2, ← firstTruthyJ_append]
  rw [step_absorb _ _ _ (firstTruthyJ_of_falsy _) (fun h => hy2 (by simpa using h))]
  rw [e2, ← firstTruthyJ_append]
  rw [if_not_truthy]
  simp [quirkyToCandidates]

/-- C6 counterexample: the claim's probe order and scan predicate both
diverge from the source.  (1) Under `transaction` the source probes
`targetAddress` BEFORE `to`: on a response carrying both, the spec-side
probing returns the `to` value while the source returns the
`targetAddress` value.  (2) The source's deep scan accepts any
`0x`-prefixed string of length 42 — here 40 `Z`s, not hex — which the
claim's 20-byte-hex-form scan rejects. -/
theorem claim_C6_counterexample :
    specQuirkyTo (.jobj [("transaction", .jobj
        [("to", Json.jstr "0xaaaaaaaaaaaaaaaaaaaaaaaaaaaaaaaaaaaaaaaa"),
         ("targetAddress", Json.jstr "0xbbbbbbbbbbbbbbbbbbbbbbbbbbbbbbbbbbbbbbbb"),
         ("data", Json.jstr "0xabcd")])])
      = .jstr "0xaaaaaaaaaaaaaaaaaaaaaaaaaaaaaaaaaaaaaaaa"
    ∧ (quirkyTxData (.jobj [("transaction", .jobj
        [("to", Json.jstr "0xaaaaaaaaaaaaaaaaaaaaaaaaaaaaaaaaaaaaaaaa"),
         ("targetAddress", Json.jstr "0xbbbbbbbbbbbbbbbbbbbbbbbbbbbbbbbbbbbbbbbb"),
         ("data", Json.jstr "0xabcd")])])).toF
      = .jstr "0xbbbbbbbbbbbbbbbbbbbbbbbbbbbbbbbbbbbbbbbb"
    ∧ "0xaaaaaaaaaaaaaaaaaaaaaaaaaaaaaaaaaaaaaaaa" ≠ "0xbbbbbbbbbbbbbbbbbbbbbbbbbbbbbbbbbbbbbbbb"
    ∧ findToAddress (.jobj [("foo", .jobj
        [("to", Json.jstr "0xZZZZZZZZZZZZZZZZZZZZZZZZZZZZZZZZZZZZZZZZ")])]) 0
      = "0xZZZZZZZZZZZZZZZZZZZZZZZZZZZZZZZZZZZZZZZZ"
    ∧ specFindTo (.jobj [("foo", .jobj
        [("to", Json.jstr "0xZZZZZZZZZZZZZZZZZZZZZZZZZZZZZZZZZZZZZZZZ")])]) 0
      = ""
    ∧ "0xZZZZZZZZZZZZZZZZZZZZZZZZZZZZZZZZZZZZZZZZ" ≠ "" :=
  ⟨rfl, rfl, by decide, rfl, rfl, by decide⟩

/-- C6 (amended): the quirky-provider target address is the first
truthy hit probing, in the source's order,
`transaction.{targetAddress,to,routeTransaction?.targetAddress}`, then
`tx.{to,targetAddress}`, then `transactionRequest.{to,targetAddress}`;
if none hits, a recursive scan of the object graph bounded to depth 3
accepting any string that starts with `0x` and has length 42 (hex or
not) under a key named `to`, `targetAddress` or `contractAddress`; a
successful extraction always carries a truthy target address, and when
the guard passes but the address is still unresolved, extraction fails
with the descriptive error rather than guessing. -/
theorem claim_C6_quirky_target_address (quoteId : String) (data : Json) :
    (quirkyTxData data).toF =
      jsOr (firstTruthyJ (quirkyToCandidates data)) (.jstr (findToAddress data 0))
    ∧ (∀ tx, quirkyExtract quoteId data = .ok tx → tx.toF.truthy = true)
    ∧ (quirkyGuard data = true → (quirkyTxData data).toF.truthy = false →
      quirkyExtract quoteId data =
        .error ("Could not find transaction target address in " ++ quoteId ++ " response")) := by
  refine ⟨quirkyTo_characterization data, fun tx hok => ?_, fun hg hto => ?_⟩
  · rw [quirkyExtract] at hok
    by_cases h0 : (!(data.getf "transaction").truthy && !(data.getf "tx").truthy &&
        !(data.getf "transactionRequest").truthy) = true
    · simp [h0, bind, Except.bind] at hok
    · simp only [h0, Bool.false_eq_true, if_neg, ite_false, bind, Except.bind,
        pure, Except.pure] at hok
      by_cases h1 : (quirkyTxData data).toF.truthy
      · by_cases h2 : (quirkyTxData data).dataF.truthy
        · simp [h1, h2] at hok
          simp [← hok, h1]
        · simp [h1, h2] at hok
      · simp [h1] at hok
  · have h0 : (!(data.getf "transaction").truthy && !(data.getf "tx").truthy &&
        !(data.getf "transactionRequest").truthy) = false := by
      cases hx : (data.getf "transaction").truthy <;>
        cases hy : (data.getf "tx").truthy <;>
          cases hz : (data.getf "transactionRequest").truthy <;>
            simp_all [quirkyGuard]
    rw [quirkyExtract]
    simp [h0, hto, bind, Except.bind, pure, Except.pure]

/-- C6 witness: a LIFI response whose transaction carries only calldata
has no probe hit and an empty scan, so extraction fails with the
descriptive target-address error; and a `tx.to` hit extracts fine. -/
theorem claim_C6_quirky_target_address_witness :
    quirkyGuard (.jobj [("transaction", .jobj [("data", Json.jstr "0xdead")])]) = true
    ∧ quirkyExtract "X_LIFI_1" (.jobj [("transaction", .jobj [("data", Json.jstr "0xdead")])])
      = .error "Could not find transaction target address in X_LIFI_1 response"
    ∧ (quirkyTxData (.jobj [("tx", .jobj
        [("to", Json.jstr "0xcccccccccccccccccccccccccccccccccccccccc"),
         ("data", Json.jstr "0xdead")])])).toF
      = jsOr (firstTruthyJ (quirkyToCandidates (.jobj [("tx", .jobj
          [("to", Json.jstr "0xcccccccccccccccccccccccccccccccccccccccc"),
           ("data", Json.jstr "0xdead")])])))
          (.jstr (findToAddress (.jobj [("tx", .jobj
            [("to", Json.jstr "0xcccccccccccccccccccccccccccccccccccccccc"),
             ("data", Json.jstr "0xdead")])]) 0)) :=
  ⟨rfl,
   by
    have h := (claim_C6_quirky_target_address "X_LIFI_1"
        (.jobj [("transaction", .jobj [("data", Json.jstr "0xdead")])])).2.2 rfl rfl
    simpa using h,
   (claim_C6_quirky_target_address "X_LIFI_1" (.jobj [("tx", .jobj
      [("to", Json.jstr "0xcccccccccccccccccccccccccccccccccccccccc"),
       ("data", Json.jstr "0xdead")])])).1⟩

/-- C10: every tool handler of the integration is total at its public
interface — for every input and upstream outcome, either the pipeline
succeeds, or the error is rendered as an ordinary text result of the
form `"Failed to <operation>: <error message>"` (each prefix literally
begins with "Failed to"); nothing escapes the handler. -/
theorem claim_C10_total_interface (derive : String → Except String String)
    (env : Env) (args : PrepareArgs) (resp1 resp2 resp3 resp4 : HttpResp) :
    ((∃ r, prepareOutcome derive env args resp1 = .ok r) ∨
      (∃ e, prepareOutcome derive env args resp1 = .error e ∧
        prepareTool derive env args resp1 = "Failed to prepare bridge swap: " ++ e ∧
        prepareTool derive env args resp1 = "Failed to" ++ (" prepare bridge swap: " ++ e)))
    ∧ ((∃ v, quotesOutcome resp2 = .ok v) ∨
      (∃ e, quotesOutcome resp2 = .error e ∧
        quotesTool resp2 = "Failed to get bridge quotes: " ++ e ∧
        quotesTool resp2 = "Failed to" ++ (" get bridge quotes: " ++ e)))
    ∧ ((∃ v, statusOutcome resp3 = .ok v) ∨
      (∃ e, statusOutcome resp3 = .error e ∧
        statusTool resp3 = "Failed to get bridge transaction status: " ++ e ∧
        statusTool resp3 = "Failed to" ++ (" get bridge transaction status: " ++ e)))
    ∧ ((∃ v, chainsOutcome resp4 = .ok v) ∨
      (∃ e, chainsOutcome resp4 = .error e ∧
        chainsTool resp4 = "Failed to get supported blockchains: " ++ e ∧
        chainsTool resp4 = "Failed to" ++ (" get supported blockchains: " ++ e))) := by
  refine ⟨?_, ?_, ?_, ?_⟩
  · cases h : prepareOutcome derive env args resp1 with
    | ok r => exact Or.inl ⟨r, rfl⟩
    | error e =>
      refine Or.inr ⟨e, rfl, ?_, ?_⟩ <;>
        simp [prepareTool, h, ← String.append_assoc]
  · cases h : quotesOutcome resp2 with
    | ok v => exact Or.inl ⟨v, rfl⟩
    | error e =>
      refine Or.inr ⟨e, rfl, ?_, ?_⟩ <;>
        simp [quotesTool, h, ← String.append_assoc]
  · cases h : statusOutcome resp3 with
    | ok v => exact Or.inl ⟨v, rfl⟩
    | error e =>
      refine Or.inr ⟨e, rfl, ?_, ?_⟩ <;>
        simp [statusTool, h, ← String.append_assoc]
  · cases h : chainsOutcome resp4 with
    | ok v => exact Or.inl ⟨v, rfl⟩
    | error e =>
      refine Or.inr ⟨e, rfl, ?_, ?_⟩ <;>
        simp [chainsTool, h, ← String.append_assoc]

end Rubic
